import Mathlib

/-!
Shallow embedding of `src/user_management_system.py` and verification of its
specification.

Modelling conventions:
- Console output (`print`) is modelled as a trace: a `List String` of emitted
  lines, produced alongside the result.
- Python exceptions are modelled with `Except PyErr`; an operation that can
  raise returns `Except PyErr α × List String` (result-or-error together with
  the lines printed before the outcome).
- The process-wide class attribute `User.active_user_count` together with the
  per-instance `active` flags is modelled as an explicit state (`SysState`)
  with the two mutating operations (`constructUser` for `User.__init__`,
  `deactivate` for `User.deactivate`) as state transformers.
- Wall-clock time (`time.time()`) is not observable in the embedding; the
  timing decorator's printed line is modelled with the elapsed-duration text
  abstracted away. Its position in the trace (after the wrapped call, only on
  the success path) follows the source.
-/

namespace UserManagementSystem

/-- Python exception values that the embedded code can raise. -/
inductive PyErr where
  | permissionError (msg : String)
  | valueError (msg : String)
  | attributeError (msg : String)
deriving DecidableEq, Repr

/-- The two concrete user variants (`AdminUser`, `RegularUser`);
the abstract base `User` cannot be instantiated. -/
inductive Role where
  | admin
  | regular
deriving DecidableEq, Repr

/-- Each variant's fixed `get_role` constant string. -/
def Role.roleString : Role → String
  | Role.admin => "ADMIN"
  | Role.regular => "REGULAR"

/-- A user object: `user_id`, `name`, `email`, `active` as set by
`User.__init__`, plus the variant tag that fixes `get_role`. -/
structure User where
  user_id : Int
  name : String
  email : String
  role : Role
  active : Bool
deriving DecidableEq, Repr

/-- `self.get_role()`: virtual dispatch to the variant's constant. -/
def User.get_role (u : User) : String := u.role.roleString

/-! ## Decorators (`log_execution`, `time_execution`, `require_admin`)

A wrapped unit of work has type `α → Except PyErr β × List String`:
it takes its argument(s) and produces a result or error plus its printed
lines. Each decorator maps such a function to another one. -/

/-- `log_execution(enabled)`: when enabled, prints
`[LOG] Executing <name>` immediately before invoking the wrapped function,
then forwards the result or error unchanged. -/
def log_execution {α β : Type} (enabled : Bool) (fname : String)
    (func : α → Except PyErr β × List String) :
    α → Except PyErr β × List String :=
  fun a =>
    if enabled then
      let r := func a
      (r.1, ("[LOG] Executing " ++ fname) :: r.2)
    else func a

/-- The console line `time_execution` prints on the success path. The real
line is `[TIME] <name> took <elapsed>s`; the wall-clock elapsed duration is
abstracted away in the embedding. -/
def timeNotice (fname : String) : String := "[TIME] " ++ fname ++ " took s"

/-- `time_execution`: records a start time, invokes the wrapped function, and
prints the elapsed-time notice after it returns; the notice is reached only
when the wrapped call returns normally (an exception propagates past the
print). Result or error are forwarded unchanged. -/
def time_execution {α β : Type} (fname : String)
    (func : α → Except PyErr β × List String) :
    α → Except PyErr β × List String :=
  fun a =>
    match func a with
    | (Except.ok b, out) => (Except.ok b, out ++ [timeNotice fname])
    | (Except.error e, out) => (Except.error e, out)

/-- `require_admin`: reads `self.get_role()` and raises
`PermissionError("Admin access required")` when it is not `"ADMIN"`;
otherwise forwards the call unchanged. -/
def require_admin {β : Type} (func : User → Except PyErr β × List String) :
    User → Except PyErr β × List String :=
  fun self =>
    if self.get_role ≠ "ADMIN" then
      (Except.error (PyErr.permissionError "Admin access required"), [])
    else func self

/-! ## `AdminUser.delete_user` -/

/-- The undecorated body of `AdminUser.delete_user`: prints `User deleted`
and returns `None`. -/
def delete_user_body (_self : User) : Except PyErr Unit × List String :=
  (Except.ok (), ["User deleted"])

/-- `AdminUser.delete_user` with its decorators: `@require_admin` outermost,
then `@log_execution()` (enabled by default), around the body. -/
def delete_user : User → Except PyErr Unit × List String :=
  require_admin (log_execution true "delete_user" delete_user_body)

/-! ## `is_valid_email`, equality, ordering -/

/-- `User.is_valid_email`: `"@" in email and "." in email`. -/
def is_valid_email (email : String) : Bool :=
  email.toList.contains '@' && email.toList.contains '.'

/-- `User.__eq__` restricted to user operands:
`self.user_id == other.user_id`. -/
def user_eq (u v : User) : Bool := u.user_id == v.user_id

/-- `User.__lt__` restricted to user operands:
`self.user_id < other.user_id`. -/
def user_lt (u v : User) : Bool := decide (u.user_id < v.user_id)

/-- An arbitrary Python value appearing as the right operand of `==`: it
either carries a `user_id` attribute (holding an integer) or does not. -/
structure PyOperand where
  user_id_attr : Option Int
deriving DecidableEq, Repr

/-- `User.__eq__` as written in the source: it evaluates
`self.user_id == other.user_id`, where the attribute lookup
`other.user_id` raises `AttributeError` when the operand has no such
attribute — there is no type check before the lookup. -/
def dunder_eq (self : User) (other : PyOperand) : Except PyErr Bool :=
  match other.user_id_attr with
  | some i => Except.ok (self.user_id == i)
  | none =>
      Except.error (PyErr.attributeError "object has no attribute user_id")

/-! ## Process-wide active-count state (`User.active_user_count`)

`User.__init__` and `User.deactivate` mutate the class attribute
`User.active_user_count` and the per-instance `active` flag. The embedding
keeps the process state explicitly: the sequence of constructed instances
(each with its variant and `active` flag) and the counter. Instances are
addressed by their construction index. -/

/-- One constructed instance as far as the counter logic is concerned:
its variant and its `active` flag. -/
structure UserInstance where
  role : Role
  active : Bool
deriving DecidableEq, Repr

/-- The process-wide state: all constructed instances plus the class
attribute `User.active_user_count` (an integer, initially 0). -/
structure SysState where
  instances : List UserInstance
  active_user_count : Int
deriving DecidableEq, Repr

/-- `User.__init__` (run by either variant's construction): appends a new
instance with `active = True` and increments `User.active_user_count`. -/
def constructUser (s : SysState) (role : Role) : SysState :=
  { instances := s.instances ++ [{ role := role, active := true }],
    active_user_count := s.active_user_count + 1 }

/-- `User.deactivate` on the instance at index `i`: if that instance is
active, it is made inactive and `User.active_user_count` is decremented;
otherwise nothing happens. -/
def deactivate (s : SysState) (i : Nat) : SysState :=
  match s.instances[i]? with
  | some inst =>
      if inst.active then
        { instances := s.instances.set i { inst with active := false },
          active_user_count := s.active_user_count - 1 }
      else s
  | none => s

/-! ## `from_string`, Python `str.split(",")` and Python `int(str)` -/

/-- Helper for `pySplitComma`: `acc` is the current field read so far. -/
def splitCommaCore : List Char → List Char → List String
  | acc, [] => [String.mk acc]
  | acc, ',' :: rest => String.mk acc :: splitCommaCore [] rest
  | acc, c :: rest => splitCommaCore (acc ++ [c]) rest

/-- Model of Python `data.split(",")`: split on every comma, keeping empty
fields; the empty string yields one empty field. -/
def pySplitComma (s : String) : List String :=
  splitCommaCore [] s.toList

/-- Characters stripped by Python `int(str)` around the literal
(ASCII whitespace). -/
def isPySpace (c : Char) : Bool :=
  c == ' ' || c == '\t' || c == '\n' || c == '\r' ||
    c == '\u000B' || c == '\u000C'

/-- Digit run of a Python integer literal after its first digit: digits with
single underscores allowed between digits (`digit ( _? digit )*`). `acc` is
the value of the digits consumed so far. -/
def pyDigits : Nat → List Char → Option Nat
  | acc, [] => some acc
  | _, ['_'] => none
  | acc, '_' :: c :: rest =>
      if c.isDigit then pyDigits (acc * 10 + (c.toNat - 48)) rest else none
  | acc, c :: rest =>
      if c.isDigit then pyDigits (acc * 10 + (c.toNat - 48)) rest else none

/-- Unsigned part of a Python integer literal: one digit followed by
`pyDigits`. -/
def pyIntCore : List Char → Option Nat
  | [] => none
  | c :: rest => if c.isDigit then pyDigits (c.toNat - 48) rest else none

/-- Model of CPython `int(str)` on ASCII input: strip surrounding
whitespace, optional single `+`/`-` sign, then a nonempty digit run with
single underscores between digits. Returns `none` where CPython raises
`ValueError`. (Non-ASCII decimal digits and exotic Unicode whitespace,
which CPython also accepts, are not modelled.) -/
def pyInt (s : String) : Option Int :=
  let cs := ((s.toList.dropWhile isPySpace).reverse.dropWhile isPySpace).reverse
  match cs with
  | '+' :: rest => (pyIntCore rest).map (fun n => (n : Int))
  | '-' :: rest => (pyIntCore rest).map (fun n => -(n : Int))
  | rest => (pyIntCore rest).map (fun n => (n : Int))

/-- The body of `User.from_string` after `data.split(",")`:
`user_id, name, email = fields` raises `ValueError` unless there are exactly
three fields, then `int(user_id)` raises `ValueError` on a non-integer
first field; otherwise the calling variant is constructed with
`(int(user_id), name, email)`. -/
def from_fields (role : Role) : List String → Except PyErr User
  | [uid, name, email] =>
      match pyInt uid with
      | some n =>
          Except.ok
            { user_id := n, name := name, email := email,
              role := role, active := true }
      | none =>
          Except.error
            (PyErr.valueError "invalid literal for int() with base 10")
  | _ =>
      Except.error
        (PyErr.valueError "unpacking mismatch: expected 3 fields")

/-- `User.from_string(data)` for the calling variant `role`:
split on commas, then `from_fields`. (The constructed user also runs
`User.__init__`; its effect on the process-wide counter is modelled by
`constructUser`.) -/
def from_string (role : Role) (data : String) : Except PyErr User :=
  from_fields role (pySplitComma data)

/-! ## `find_user` -/

/-- An element of the list handed to `find_user`: either a well-formed user
or a malformed element whose `user_id` attribute lookup raises. -/
inductive Cell where
  | good (u : User)
  | malformed
deriving DecidableEq, Repr

/-- `find_user(users, user_id)`: linear scan returning the first user whose
`user_id` matches (early exit, later elements never touched); when the loop
finishes without a match, the `for/else` branch prints `User not found` and
the function returns `None`. Touching a malformed element's `user_id`
raises. -/
def find_user : List Cell → Int → Except PyErr (Option User) × List String
  | [], _ => (Except.ok none, ["User not found"])
  | Cell.malformed :: _, _ =>
      (Except.error (PyErr.attributeError "object has no attribute user_id"),
        [])
  | Cell.good u :: rest, target =>
      if u.user_id = target then (Except.ok (some u), [])
      else find_user rest target

/-! ## `UserRepository.stream_users` -/

/-- `UserRepository`: holds (a reference to) the list of users. -/
structure UserRepository where
  users : List User
deriving DecidableEq, Repr

/-- The state of one generator object returned by `stream_users()`: the
elements not yet yielded. -/
structure GenState where
  remaining : List User
deriving DecidableEq, Repr

/-- `stream_users()`: each call creates a fresh generator positioned at the
start of the repository's current contents. -/
def stream_users (repo : UserRepository) : GenState :=
  { remaining := repo.users }

/-- Advancing a generator: yields the next element and the new generator
state, or `none` when exhausted. -/
def genNext : GenState → Option (User × GenState)
  | { remaining := [] } => none
  | { remaining := u :: rest } => some (u, { remaining := rest })

/-- The full sequence of elements a generator yields when driven to
exhaustion. -/
def genToList : GenState → List User
  | { remaining := [] } => []
  | { remaining := u :: rest } => u :: genToList { remaining := rest }

/-- Driving a generator forward `k` steps (or to exhaustion, whichever
comes first). -/
def genDrop : GenState → Nat → GenState
  | g, 0 => g
  | g, k + 1 =>
      match genNext g with
      | none => g
      | some (_, g') => genDrop g' k

/-! ## Concrete users (the driver's two users, reused as test inputs) -/

/-- The driver's `AdminUser(1, "Akash", "akash@test.com")`. -/
def akash : User :=
  { user_id := 1, name := "Akash", email := "akash@test.com",
    role := Role.admin, active := true }

/-- The driver's `RegularUser.from_string("2,Rahul,rahul@test.com")`. -/
def rahul : User :=
  { user_id := 2, name := "Rahul", email := "rahul@test.com",
    role := Role.regular, active := true }

/-! ## Helper lemmas -/

theorem list_set_lookup {α : Type} (l : List α) (i : Nat) (a b : α)
    (h : l[i]? = some a) : (l.set i b)[i]? = some b := by
  induction l generalizing i with
  | nil => simp at h
  | cons x t ih =>
      cases i with
      | zero => simp
      | succ j => simpa using ih j (by simpa using h)

theorem log_execution_fst {α β : Type} (e : Bool) (n : String)
    (f : α → Except PyErr β × List String) (a : α) :
    (log_execution e n f a).1 = (f a).1 := by
  cases e <;> simp [log_execution]

theorem time_execution_fst {α β : Type} (m : String)
    (f : α → Except PyErr β × List String) (a : α) :
    (time_execution m f a).1 = (f a).1 := by
  rcases h : f a with ⟨r, out⟩
  cases r <;> simp [time_execution, h]

theorem from_fields_ok_iff (role : Role) (l : List String) :
    (∃ u, from_fields role l = Except.ok u) ↔
      (l.length = 3 ∧ (pyInt (l.headD "")).isSome) := by
  match l with
  | [] => simp [from_fields]
  | [a] => simp [from_fields]
  | [a, b] => simp [from_fields]
  | [a, b, c] => cases h : pyInt a <;> simp [from_fields, h]
  | a :: b :: c :: d :: t => simp [from_fields]

theorem find_user_skip (l1 rest : List Cell) (target : Int)
    (h1 : ∀ c ∈ l1, ∃ v, c = Cell.good v ∧ v.user_id ≠ target) :
    find_user (l1 ++ rest) target = find_user rest target := by
  induction l1 with
  | nil => rfl
  | cons c t ih =>
      obtain ⟨v, hv, hne⟩ := h1 c (List.mem_cons_self c t)
      subst hv
      have ht : ∀ x ∈ t, ∃ w, x = Cell.good w ∧ w.user_id ≠ target :=
        fun x hx => h1 x (List.mem_cons_of_mem _ hx)
      simp only [List.cons_append, find_user, if_neg hne]
      exact ih ht

theorem genToList_mk (l : List User) : genToList { remaining := l } = l := by
  induction l with
  | nil => simp [genToList]
  | cons u t ih => simp [genToList, ih]

theorem genDrop_mk (k : Nat) (l : List User) :
    genDrop { remaining := l } k = { remaining := l.drop k } := by
  induction k generalizing l with
  | zero => simp [genDrop]
  | succ j ih =>
      cases l with
      | nil => simp [genDrop, genNext]
      | cons u t => simp [genDrop, genNext, ih]

/-! ## Claim theorems -/

/-- C1: every construction (of either variant) increments the process-wide
active count by exactly 1; `deactivate` on an active instance decrements the
count by exactly 1 and marks the instance inactive, after which a second
`deactivate` changes nothing; `deactivate` on an already-inactive instance
leaves the whole state (count and instance) unchanged. -/
theorem c1_active_user_count (s : SysState) (role : Role) (i : Nat)
    (inst : UserInstance) :
    (constructUser s role).active_user_count = s.active_user_count + 1 ∧
    (s.instances[i]? = some inst → inst.active = true →
      (deactivate s i).active_user_count = s.active_user_count - 1 ∧
      (deactivate s i).instances[i]? =
        some { inst with active := false } ∧
      deactivate (deactivate s i) i = deactivate s i) ∧
    (s.instances[i]? = some inst → inst.active = false →
      deactivate s i = s) := by
  refine ⟨rfl, ?_, ?_⟩
  · intro h ha
    have hset :
        (s.instances.set i { inst with active := false })[i]? =
          some { inst with active := false } :=
      list_set_lookup _ _ _ _ h
    have h1 : deactivate s i =
        { instances := s.instances.set i { inst with active := false },
          active_user_count := s.active_user_count - 1 } := by
      simp [deactivate, h, ha]
    refine ⟨?_, ?_, ?_⟩
    · rw [h1]
    · rw [h1]; exact hset
    · rw [h1]; simp [deactivate, hset]
  · intro h ha
    simp [deactivate, h, ha]

/-- C1 witness: a concrete run — construction raises the count from 1 to 2;
deactivating the active instance 0 of state `⟨[active admin], 1⟩` drops the
count to 0+...; deactivating an already-inactive instance is the identity. -/
theorem c1_active_user_count_witness :
    (constructUser ⟨[⟨Role.admin, true⟩], 1⟩ Role.regular).active_user_count
      = 2 ∧
    (deactivate ⟨[⟨Role.admin, true⟩], 1⟩ 0).active_user_count = 0 ∧
    deactivate ⟨[⟨Role.admin, false⟩], 0⟩ 0 = ⟨[⟨Role.admin, false⟩], 0⟩ := by
  refine ⟨?_, ?_, ?_⟩
  · have := (c1_active_user_count ⟨[⟨Role.admin, true⟩], 1⟩ Role.regular 0
      ⟨Role.admin, true⟩).1
    simpa using this
  · have := ((c1_active_user_count ⟨[⟨Role.admin, true⟩], 1⟩ Role.regular 0
      ⟨Role.admin, true⟩).2.1 rfl rfl).1
    simpa using this
  · exact (c1_active_user_count ⟨[⟨Role.admin, false⟩], 0⟩ Role.regular 0
      ⟨Role.admin, false⟩).2.2 rfl rfl

/-- C2: `delete_user` (gate outermost, then logging wrap) fails with
`PermissionError` and emits nothing when the object's role is not
`"ADMIN"`; on an admin-role object it succeeds and prints the logging
notice and then the deletion notice, in that order. -/
theorem c2_delete_user_gate (u : User) :
    (u.get_role ≠ "ADMIN" →
      delete_user u =
        (Except.error (PyErr.permissionError "Admin access required"),
          [])) ∧
    (u.get_role = "ADMIN" →
      delete_user u =
        (Except.ok (), ["[LOG] Executing delete_user", "User deleted"])) := by
  constructor
  · intro h
    simp [delete_user, require_admin, h]
  · intro h
    simp [delete_user, require_admin, h, log_execution, delete_user_body]

/-- C2 witness: the regular-role user is refused with no output; the
admin-role user succeeds with the two notices in order. -/
theorem c2_delete_user_gate_witness :
    delete_user rahul =
      (Except.error (PyErr.permissionError "Admin access required"), []) ∧
    delete_user akash =
      (Except.ok (), ["[LOG] Executing delete_user", "User deleted"]) := by
  constructor
  · exact (c2_delete_user_gate rahul).1 (by decide)
  · exact (c2_delete_user_gate akash).2 rfl

/-- C3: `from_string` succeeds exactly when splitting on commas yields
three fields whose first parses as a Python integer; on success it builds
the calling variant from (integer id, name, email); the three documented
examples behave as specified (failures are `ValueError`s, the spec's
`ParseError`). -/
theorem c3_from_string (role : Role) (s : String) :
    ((∃ u, from_string role s = Except.ok u) ↔
      ((pySplitComma s).length = 3 ∧
        (pyInt ((pySplitComma s).headD "")).isSome)) ∧
    (∀ a b c n, pySplitComma s = [a, b, c] → pyInt a = some n →
      from_string role s =
        Except.ok { user_id := n, name := b, email := c,
                    role := role, active := true }) ∧
    from_string role "2,Rahul,rahul@test.com" =
      Except.ok { user_id := 2, name := "Rahul",
                  email := "rahul@test.com", role := role,
                  active := true } ∧
    from_string role "x,y" =
      Except.error (PyErr.valueError "unpacking mismatch: expected 3 fields") ∧
    from_string role "a,b,c" =
      Except.error
        (PyErr.valueError "invalid literal for int() with base 10") := by
  refine ⟨from_fields_ok_iff role _, ?_, rfl, rfl, rfl⟩
  intro a b c n hsplit hint
  simp [from_string, hsplit, from_fields, hint]

/-- C3 witness: the documented success example, via the general success
conjunct at its concrete fields. -/
theorem c3_from_string_witness :
    from_string Role.regular "2,Rahul,rahul@test.com" =
      Except.ok { user_id := 2, name := "Rahul",
                  email := "rahul@test.com", role := Role.regular,
                  active := true } :=
  (c3_from_string Role.regular "2,Rahul,rahul@test.com").2.1
    "2" "Rahul" "rahul@test.com" 2 rfl rfl

/-- C4: the logging wrapper (enabled or disabled) and the timing wrapper
return exactly the wrapped function's result — the same value on success
and the same error on failure — and they compose in either order without
altering that result; only the printed trace differs. -/
theorem c4_wrappers_preserve {α β : Type} (e : Bool) (n m : String)
    (f : α → Except PyErr β × List String) (a : α) :
    (log_execution e n f a).1 = (f a).1 ∧
    (time_execution m f a).1 = (f a).1 ∧
    (log_execution e n (time_execution m f) a).1 = (f a).1 ∧
    (time_execution m (log_execution e n f) a).1 = (f a).1 := by
  refine ⟨log_execution_fst e n f a, time_execution_fst m f a, ?_, ?_⟩
  · rw [log_execution_fst, time_execution_fst]
  · rw [time_execution_fst, log_execution_fst]

/-- C5: `is_valid_email` is true exactly when the string contains at least
one `@` and at least one `.`; the three documented examples hold. -/
theorem c5_is_valid_email (s : String) :
    (is_valid_email s = true ↔ ('@' ∈ s.toList ∧ '.' ∈ s.toList)) ∧
    is_valid_email "a@b.c" = true ∧
    is_valid_email "abc" = false ∧
    is_valid_email "a@b" = false := by
  refine ⟨?_, by decide, by decide, by decide⟩
  simp [is_valid_email]

/-- C6: between users, equality holds exactly on equal identifiers and
`<` exactly on strictly smaller identifier; changing names and emails on
either side never changes either comparison. -/
theorem c6_eq_lt_by_id (u v : User) :
    (user_eq u v = true ↔ u.user_id = v.user_id) ∧
    (user_lt u v = true ↔ u.user_id < v.user_id) ∧
    (∀ n1 e1 n2 e2 : String,
      user_eq { u with name := n1, email := e1 }
          { v with name := n2, email := e2 } = user_eq u v ∧
      user_lt { u with name := n1, email := e1 }
          { v with name := n2, email := e2 } = user_lt u v) := by
  refine ⟨?_, ?_, ?_⟩ <;> simp [user_eq, user_lt]

/-- C7: `find_user` returns the first matching user without touching later
elements (a malformed later element causes no error on the found path);
when nothing matches it prints exactly one not-found notice and returns
`None` instead of raising. -/
theorem c7_find_user (l l1 l2 : List Cell) (u : User) (target : Int) :
    ((∀ c ∈ l1, ∃ v, c = Cell.good v ∧ v.user_id ≠ target) →
      u.user_id = target →
      find_user (l1 ++ Cell.good u :: l2) target =
        (Except.ok (some u), [])) ∧
    ((∀ c ∈ l, ∃ v, c = Cell.good v ∧ v.user_id ≠ target) →
      find_user l target = (Except.ok none, ["User not found"])) := by
  constructor
  · intro h1 hu
    rw [find_user_skip l1 (Cell.good u :: l2) target h1]
    simp [find_user, hu]
  · intro h
    have hskip := find_user_skip l [] target h
    rw [List.append_nil] at hskip
    rw [hskip]
    simp [find_user]

/-- C7 witness: the match on `rahul` (id 2) is found before the malformed
trailing element; the miss on id 99 returns `None` with one notice. -/
theorem c7_find_user_witness :
    find_user [Cell.good akash, Cell.good rahul, Cell.malformed] 2 =
      (Except.ok (some rahul), []) ∧
    find_user [Cell.good akash, Cell.good rahul] 99 =
      (Except.ok none, ["User not found"]) := by
  constructor
  · refine (c7_find_user [] [Cell.good akash] [Cell.malformed] rahul 2).1
      ?_ rfl
    intro c hc
    simp only [List.mem_singleton] at hc
    subst hc
    exact ⟨akash, rfl, by decide⟩
  · refine (c7_find_user [Cell.good akash, Cell.good rahul] [] []
      rahul 99).2 ?_
    intro c hc
    rcases List.mem_cons.mp hc with h | h
    · exact ⟨akash, h, by decide⟩
    · rcases List.mem_cons.mp h with h2 | h2
      · exact ⟨rahul, h2, by decide⟩
      · simp at h2

/-- C8: a fresh traversal of the repository yields exactly its current
elements in insertion order (and, `stream_users` being a pure function of
the repository, this holds of every fresh request, whatever was consumed
from earlier generators); consuming `k` elements one at a time leaves
exactly the elements after position `k`, so elements come one at a time in
order. -/
theorem c8_stream_users (repo : UserRepository) (k : Nat) :
    genToList (stream_users repo) = repo.users ∧
    genToList (genDrop (stream_users repo) k) = repo.users.drop k := by
  constructor
  · exact genToList_mk repo.users
  · rw [stream_users, genDrop_mk, genToList_mk]

/-- C9: when the wrapped function raises, the timing wrapper propagates the
error with the trace unchanged — the elapsed-time notice is emitted only on
the success path. -/
theorem c9_time_error_no_notice {α β : Type} (m : String)
    (f : α → Except PyErr β × List String) (a : α) (e : PyErr)
    (out : List String) (h : f a = (Except.error e, out)) :
    time_execution m f a = (Except.error e, out) := by
  simp [time_execution, h]

/-- C9 witness: a concretely failing function wrapped by the timing
decorator propagates its error and emits no timing line. -/
theorem c9_time_error_no_notice_witness :
    time_execution "main"
        (fun _ : Unit =>
          ((Except.error (PyErr.valueError "boom") : Except PyErr Unit),
            ["partial output"])) () =
      (Except.error (PyErr.valueError "boom"), ["partial output"]) :=
  c9_time_error_no_notice "main" _ () (PyErr.valueError "boom")
    ["partial output"] rfl

/-- C10: `__eq__` reads `other.user_id` with no preceding type check, so
comparing a user with any operand lacking a `user_id` attribute raises
`AttributeError` rather than returning `False`. -/
theorem c10_eq_attribute_error (u : User) (other : PyOperand)
    (h : other.user_id_attr = none) :
    dunder_eq u other =
      Except.error (PyErr.attributeError "object has no attribute user_id") := by
  simp [dunder_eq, h]

/-- C10 witness: comparing `akash` with an operand that has no `user_id`
attribute raises `AttributeError`. -/
theorem c10_eq_attribute_error_witness :
    dunder_eq akash { user_id_attr := none } =
      Except.error (PyErr.attributeError "object has no attribute user_id") :=
  c10_eq_attribute_error akash { user_id_attr := none } rfl

end UserManagementSystem
